import Mathlib

/-!
Shallow embedding of `tracing-opentelemetry/src/tracer.rs`: the
`PreSampledTracer` implementations for the OpenTelemetry `NoopTracer`
(the Null Backend) and the SDK `Tracer` (the Active Backend).

Trace and span ids are modelled as `Nat` with `0` as the invalid
sentinel; trace flags as a `Nat` with `TRACE_FLAG_SAMPLED = 1`.
The pluggable ID generator is modelled by the values it returns, and the
sampler by its `should_sample` function.  The Rust method mutates the
`SpanBuilder` in place; the embedding threads the builder explicitly and
returns the pair (reference, updated builder).
-/

namespace Tracing

abbrev TraceId := Nat
abbrev SpanId := Nat

/-- Modelled from the spec: the distinguished invalid sentinel of `TraceId`
(the all-zero id of the OpenTelemetry API). -/
def TraceId.invalid : TraceId := 0

/-- Modelled from the spec: the distinguished invalid sentinel of `SpanId`. -/
def SpanId.invalid : SpanId := 0

/-- Modelled from the spec: the "sampled" bit of the trace-flags bitset
(`otel::TRACE_FLAG_SAMPLED`). -/
def TRACE_FLAG_SAMPLED : Nat := 1

/-- Trace state entries; only its default (empty) value matters here. -/
abbrev TraceState := List (String × String)

/-- The externally injectable identity (`otel::SpanReference`):
(trace id, span id, trace flags, remote flag, trace state). -/
structure SpanReference where
  trace_id : TraceId
  span_id : SpanId
  trace_flags : Nat
  is_remote : Bool
  trace_state : TraceState
deriving DecidableEq, Repr

/-- Modelled from the spec: validity of a span reference per the
OpenTelemetry API contract — both ids differ from the invalid sentinel. -/
def SpanReference.is_valid (r : SpanReference) : Bool :=
  r.trace_id != TraceId.invalid && r.span_id != SpanId.invalid

/-- Modelled from the spec: `otel::SpanReference::empty_context()` — the
empty/invalid reference (invalid ids, zero flags, not remote, default
state). -/
def SpanReference.empty_context : SpanReference :=
  ⟨TraceId.invalid, SpanId.invalid, 0, false, []⟩

/-- Span kinds of the OpenTelemetry API; `Internal` is the default used by
the resolver when the builder has none. -/
inductive SpanKind where
  | Internal
  | Server
  | Client
  | Producer
  | Consumer
deriving DecidableEq, Repr

/-- `sdk::trace::SamplingDecision`. -/
inductive SamplingDecision where
  | Drop
  | RecordOnly
  | RecordAndSample
deriving DecidableEq, Repr

/-- Span attributes (`KeyValue`), modelled as key/value string pairs. -/
abbrev KeyValue := String × String

/-- Span links; only passed through to the sampler, so modelled by the
referenced span reference. -/
abbrev Link := SpanReference

/-- The sampler's verdict: a decision plus additional attributes to merge
into the span. -/
structure SamplingResult where
  decision : SamplingDecision
  attributes : List KeyValue
deriving DecidableEq, Repr

/-- The in-progress span descriptor (`otel::SpanBuilder`): the fields read
or written by `sampled_span_reference`. -/
structure SpanBuilder where
  trace_id : Option TraceId
  span_id : Option SpanId
  parent_reference : Option SpanReference
  name : String
  span_kind : Option SpanKind
  attributes : Option (List KeyValue)
  links : Option (List Link)
  sampling_result : Option SamplingResult
deriving DecidableEq, Repr

/-- Modelled from the spec: the pluggable ID generator capability, given by
the values its `new_trace_id` / `new_span_id` calls return. -/
structure IdGenerator where
  genTraceId : TraceId
  genSpanId : SpanId

/-- Modelled from the spec: the sampler capability
`should_sample(parent_reference?, trace_id, name, kind, attributes, links)`. -/
structure Sampler where
  should_sample : Option SpanReference → TraceId → String → SpanKind →
    List KeyValue → List Link → SamplingResult

/-- Provider configuration: an ID generator and a default sampler. -/
structure Config where
  id_generator : IdGenerator
  default_sampler : Sampler

/-- A tracer provider holding the configuration. -/
structure Provider where
  config : Config

/-- The Active Backend (`sdk::trace::Tracer`): `provider()` returns an
optional provider handle (absent when torn down). -/
structure Tracer where
  provider : Option Provider

namespace NoopTracer

/-- `impl PreSampledTracer for NoopTracer`, `sampled_span_reference`:
the builder's parent reference, cloned, or else the empty context.  The
builder is not mutated. -/
def sampled_span_reference (builder : SpanBuilder) : SpanReference :=
  builder.parent_reference.getD SpanReference.empty_context

/-- `impl PreSampledTracer for NoopTracer`, `new_trace_id`. -/
def new_trace_id : TraceId := TraceId.invalid

/-- `impl PreSampledTracer for NoopTracer`, `new_span_id`. -/
def new_span_id : SpanId := SpanId.invalid

end NoopTracer

namespace Tracer

/-- `impl PreSampledTracer for Tracer`, `sampled_span_reference`.
Returns the produced reference together with the builder after the
in-place mutation the Rust method performs. -/
def sampled_span_reference (t : Tracer) (builder : SpanBuilder) :
    SpanReference × SpanBuilder :=
  let span_id := builder.span_id.getD
    ((t.provider.map fun provider => provider.config.id_generator.genSpanId).getD
      SpanId.invalid)
  let res : (TraceId × Nat) × SpanBuilder :=
    match builder.parent_reference.filter SpanReference.is_valid with
    | some parent => ((parent.trace_id, parent.trace_flags), builder)
    | none =>
      let trace_id := builder.trace_id.getD
        ((t.provider.map fun provider => provider.config.id_generator.genTraceId).getD
          TraceId.invalid)
      -- ensure sampling decision is recorded so all span references have
      -- consistent flags
      let step : SamplingDecision × SpanBuilder :=
        match builder.sampling_result with
        | some result => (result.decision, builder)
        | none =>
          match t.provider with
          | some provider =>
            let result := provider.config.default_sampler.should_sample
              builder.parent_reference trace_id builder.name
              (builder.span_kind.getD SpanKind.Internal)
              (builder.attributes.getD []) (builder.links.getD [])
            -- Record additional attributes resulting from sampling
            (result.decision,
             { builder with
                attributes := some (match builder.attributes with
                  | some attributes => attributes ++ result.attributes
                  | none => result.attributes) })
          | none => (SamplingDecision.Drop, builder)
      let trace_flags :=
        if step.1 = SamplingDecision.RecordAndSample then TRACE_FLAG_SAMPLED else 0
      ((trace_id, trace_flags), step.2)
  (⟨res.1.1, span_id, res.1.2, false, []⟩, res.2)

/-- `impl PreSampledTracer for Tracer`, `new_trace_id`. -/
def new_trace_id (t : Tracer) : TraceId :=
  (t.provider.map fun provider => provider.config.id_generator.genTraceId).getD
    TraceId.invalid

/-- `impl PreSampledTracer for Tracer`, `new_span_id`. -/
def new_span_id (t : Tracer) : SpanId :=
  (t.provider.map fun provider => provider.config.id_generator.genSpanId).getD
    SpanId.invalid

end Tracer

end Tracing

namespace Tracing

/-- C1: for every builder carrying a valid parent reference, the Active
Backend's `sampled_span_reference` returns a reference whose trace id and
trace flags equal the parent's exactly. -/
theorem C1_parent_inheritance (t : Tracer) (b : SpanBuilder) (p : SpanReference)
    (hp : b.parent_reference = some p) (hv : p.is_valid = true) :
    (t.sampled_span_reference b).1.trace_id = p.trace_id ∧
    (t.sampled_span_reference b).1.trace_flags = p.trace_flags := by
  unfold Tracer.sampled_span_reference
  simp [hp, Option.filter, hv]

/-- Witness for C1 at a concrete tracer, builder and parent. -/
theorem C1_parent_inheritance_witness :
    ((Tracer.mk none).sampled_span_reference
        ⟨none, none, some ⟨3, 4, 1, false, []⟩, "w", none, none, none, none⟩).1.trace_id = 3 ∧
    ((Tracer.mk none).sampled_span_reference
        ⟨none, none, some ⟨3, 4, 1, false, []⟩, "w", none, none, none, none⟩).1.trace_flags = 1 :=
  C1_parent_inheritance ⟨none⟩ _ ⟨3, 4, 1, false, []⟩ rfl rfl

/-- C8: the Null Backend's id generators always return the invalid
sentinel; the Active Backend's return exactly the configured generator's
values when a provider is reachable, and the invalid sentinel otherwise. -/
theorem C8_id_generation (t tdown : Tracer) (P : Provider)
    (hprov : t.provider = some P) (hdown : tdown.provider = none) :
    NoopTracer.new_trace_id = TraceId.invalid ∧
    NoopTracer.new_span_id = SpanId.invalid ∧
    t.new_trace_id = P.config.id_generator.genTraceId ∧
    t.new_span_id = P.config.id_generator.genSpanId ∧
    tdown.new_trace_id = TraceId.invalid ∧
    tdown.new_span_id = SpanId.invalid := by
  refine ⟨rfl, rfl, ?_, ?_, ?_, ?_⟩ <;>
    simp [Tracer.new_trace_id, Tracer.new_span_id, hprov, hdown]

/-- Witness for C8 with a concrete generator returning 11 and 12. -/
theorem C8_id_generation_witness :
    NoopTracer.new_trace_id = TraceId.invalid ∧
    NoopTracer.new_span_id = SpanId.invalid ∧
    (Tracer.mk (some ⟨⟨⟨11, 12⟩, ⟨fun _ _ _ _ _ _ => ⟨SamplingDecision.Drop, []⟩⟩⟩⟩)).new_trace_id = 11 ∧
    (Tracer.mk (some ⟨⟨⟨11, 12⟩, ⟨fun _ _ _ _ _ _ => ⟨SamplingDecision.Drop, []⟩⟩⟩⟩)).new_span_id = 12 ∧
    (Tracer.mk none).new_trace_id = TraceId.invalid ∧
    (Tracer.mk none).new_span_id = SpanId.invalid :=
  C8_id_generation _ _ ⟨⟨⟨11, 12⟩, ⟨fun _ _ _ _ _ _ => ⟨SamplingDecision.Drop, []⟩⟩⟩⟩ rfl rfl

/-- C4 counterexample: a parent reference that is present but invalid
(span id is the sentinel) is returned verbatim by the Null Backend, and it
differs from the empty/invalid reference the claim promises. -/
theorem C4_counterexample :
    (SpanReference.mk 5 0 TRACE_FLAG_SAMPLED false []).is_valid = false ∧
    NoopTracer.sampled_span_reference
        ⟨none, none, some ⟨5, 0, TRACE_FLAG_SAMPLED, false, []⟩, "noop", none, none, none, none⟩
      = ⟨5, 0, TRACE_FLAG_SAMPLED, false, []⟩ ∧
    NoopTracer.sampled_span_reference
        ⟨none, none, some ⟨5, 0, TRACE_FLAG_SAMPLED, false, []⟩, "noop", none, none, none, none⟩
      ≠ SpanReference.empty_context := by
  decide

/-- C4 (amended): the Null Backend returns the builder's parent reference
verbatim whenever one is present (valid or not), and the empty/invalid
reference when none is present; it consults no id generator. -/
theorem C4_noop_verbatim (b : SpanBuilder) :
    (∀ p, b.parent_reference = some p → NoopTracer.sampled_span_reference b = p) ∧
    (b.parent_reference = none →
      NoopTracer.sampled_span_reference b = SpanReference.empty_context) := by
  constructor
  · intro p hp
    simp [NoopTracer.sampled_span_reference, hp]
  · intro hp
    simp [NoopTracer.sampled_span_reference, hp]

/-- Witness for C4 (amended) at a concrete builder with a parent. -/
theorem C4_noop_verbatim_witness :
    NoopTracer.sampled_span_reference
        ⟨none, none, some ⟨7, 8, 0, false, []⟩, "n", none, none, none, none⟩
      = ⟨7, 8, 0, false, []⟩ :=
  (C4_noop_verbatim ⟨none, none, some ⟨7, 8, 0, false, []⟩, "n", none, none, none, none⟩).1
    ⟨7, 8, 0, false, []⟩ rfl

end Tracing

namespace Tracing

/-- C2: with no valid parent and a reachable provider, the returned
reference's flags come from the resolved sampling decision (the cached one
if present, else the sampler's): `RecordAndSample` sets the sampled bit,
every other decision leaves the flags clear. -/
theorem C2_root_sampling_flags (t : Tracer) (P : Provider) (b : SpanBuilder)
    (hp : b.parent_reference.filter SpanReference.is_valid = none)
    (hprov : t.provider = some P) :
    (t.sampled_span_reference b).1.trace_flags =
      (if (match b.sampling_result with
           | some result => result.decision
           | none =>
             (P.config.default_sampler.should_sample b.parent_reference
               (b.trace_id.getD P.config.id_generator.genTraceId) b.name
               (b.span_kind.getD SpanKind.Internal)
               (b.attributes.getD []) (b.links.getD [])).decision)
          = SamplingDecision.RecordAndSample
       then TRACE_FLAG_SAMPLED else 0) := by
  unfold Tracer.sampled_span_reference
  cases hres : b.sampling_result <;> simp [hp, hprov, hres]

/-- Witness for C2: a root builder under a sampler fixed to
`RecordAndSample` resolves to flags with the sampled bit set. -/
theorem C2_root_sampling_flags_witness :
    ((Tracer.mk (some ⟨⟨⟨21, 22⟩,
          ⟨fun _ _ _ _ _ _ => ⟨SamplingDecision.RecordAndSample, []⟩⟩⟩⟩)).sampled_span_reference
        ⟨none, none, none, "root", none, none, none, none⟩).1.trace_flags
      = TRACE_FLAG_SAMPLED := by
  simpa using C2_root_sampling_flags
    (Tracer.mk (some ⟨⟨⟨21, 22⟩, ⟨fun _ _ _ _ _ _ => ⟨SamplingDecision.RecordAndSample, []⟩⟩⟩⟩))
    ⟨⟨⟨21, 22⟩, ⟨fun _ _ _ _ _ _ => ⟨SamplingDecision.RecordAndSample, []⟩⟩⟩⟩
    ⟨none, none, none, "root", none, none, none, none⟩ rfl rfl

/-- C3 counterexample: with no reachable provider but a valid, sampled
parent reference, the resolved trace id is the parent's (not the invalid
sentinel, though no trace id was pre-assigned on the builder) and the
sampled bit is set (not the claimed drop default). -/
theorem C3_counterexample :
    ((Tracer.mk none).sampled_span_reference
        ⟨none, none, some ⟨5, 6, TRACE_FLAG_SAMPLED, false, []⟩, "c", none, none, none, none⟩).1.trace_id
      ≠ TraceId.invalid ∧
    ((Tracer.mk none).sampled_span_reference
        ⟨none, none, some ⟨5, 6, TRACE_FLAG_SAMPLED, false, []⟩, "c", none, none, none, none⟩).1.trace_flags
      ≠ 0 := by
  decide

/-- C3 (amended): with no reachable provider, resolution of a builder with
no valid parent and no cached sampling result is total and returns the
structurally well-formed reference whose ids are the builder's pre-assigned
ones or the invalid sentinel, with flags clear (drop default), not remote,
empty state; the builder is left unchanged. -/
theorem C3_no_provider_fallback (t : Tracer) (b : SpanBuilder)
    (hprov : t.provider = none)
    (hp : b.parent_reference.filter SpanReference.is_valid = none)
    (hres : b.sampling_result = none) :
    t.sampled_span_reference b =
      (⟨b.trace_id.getD TraceId.invalid, b.span_id.getD SpanId.invalid, 0, false, []⟩, b) := by
  unfold Tracer.sampled_span_reference
  simp [hprov, hp, hres]

/-- Witness for C3 (amended) at a concrete builder with a pre-assigned
trace id and no span id. -/
theorem C3_no_provider_fallback_witness :
    (Tracer.mk none).sampled_span_reference
        ⟨some 9, none, none, "f", none, none, none, none⟩
      = (⟨9, SpanId.invalid, 0, false, []⟩,
         ⟨some 9, none, none, "f", none, none, none, none⟩) := by
  simpa using C3_no_provider_fallback (Tracer.mk none)
    ⟨some 9, none, none, "f", none, none, none, none⟩ rfl rfl rfl

end Tracing

namespace Tracing

/-- A sampler whose decision depends on whether a parent reference is
passed at all: `RecordAndSample` when one is present, `Drop` otherwise. -/
def parentSensitiveSampler : Sampler :=
  ⟨fun parent _ _ _ _ _ =>
    match parent with
    | some _ => ⟨SamplingDecision.RecordAndSample, []⟩
    | none => ⟨SamplingDecision.Drop, []⟩⟩

/-- C5 counterexample: under a parent-sensitive sampler, a builder whose
parent reference is present but invalid resolves with the sampled bit set,
while the same builder with no parent reference resolves with flags clear —
the two references differ, because the sampler receives the (invalid)
parent rather than nothing. -/
theorem C5_counterexample :
    (SpanReference.mk 0 0 0 false []).is_valid = false ∧
    ((Tracer.mk (some ⟨⟨⟨7, 8⟩, parentSensitiveSampler⟩⟩)).sampled_span_reference
        ⟨none, none, some ⟨0, 0, 0, false, []⟩, "x", none, none, none, none⟩).1
      ≠
    ((Tracer.mk (some ⟨⟨⟨7, 8⟩, parentSensitiveSampler⟩⟩)).sampled_span_reference
        ⟨none, none, none, "x", none, none, none, none⟩).1 := by
  decide

/-- C5 (amended): a builder whose parent reference is present but invalid
resolves exactly like the same builder with no parent — same reference and
same mutation (the resulting builders agree on every field except the
untouched parent field itself) — provided the sampler, when consulted, does
not distinguish the invalid parent argument from an absent one. -/
theorem C5_invalid_parent_as_root (t : Tracer) (b : SpanBuilder) (p : SpanReference)
    (hp : b.parent_reference = some p) (hv : p.is_valid = false)
    (hsampler : ∀ P, t.provider = some P →
      ∀ tid name kind attrs links,
        P.config.default_sampler.should_sample (some p) tid name kind attrs links =
        P.config.default_sampler.should_sample none tid name kind attrs links) :
    (t.sampled_span_reference b).1 =
      (t.sampled_span_reference { b with parent_reference := none }).1 ∧
    (t.sampled_span_reference b).2 =
      { (t.sampled_span_reference { b with parent_reference := none }).2 with
          parent_reference := some p } := by
  obtain ⟨bt, bs, bp, bn, bk, ba, bl, br⟩ := b
  simp only [SpanBuilder.mk.injEq] at hp ⊢
  subst hp
  unfold Tracer.sampled_span_reference
  cases hres : br with
  | some result =>
      simp [Option.filter, hv, hres]
  | none =>
      cases hprov : t.provider with
      | none => simp [Option.filter, hv, hres, hprov]
      | some P =>
          have hs := hsampler P hprov
          simp [Option.filter, hv, hres, hprov, hs]

/-- Witness for C5 (amended): concrete tracer with a parent-insensitive
sampler, builder with an invalid parent. -/
theorem C5_invalid_parent_as_root_witness :
    ((Tracer.mk (some ⟨⟨⟨7, 8⟩,
          ⟨fun _ _ _ _ _ _ => ⟨SamplingDecision.RecordAndSample, []⟩⟩⟩⟩)).sampled_span_reference
        ⟨none, none, some ⟨0, 9, 0, false, []⟩, "y", none, none, none, none⟩).1 =
      ((Tracer.mk (some ⟨⟨⟨7, 8⟩,
          ⟨fun _ _ _ _ _ _ => ⟨SamplingDecision.RecordAndSample, []⟩⟩⟩⟩)).sampled_span_reference
        ⟨none, none, none, "y", none, none, none, none⟩).1 :=
  (C5_invalid_parent_as_root
    (Tracer.mk (some ⟨⟨⟨7, 8⟩, ⟨fun _ _ _ _ _ _ => ⟨SamplingDecision.RecordAndSample, []⟩⟩⟩⟩))
    ⟨none, none, some ⟨0, 9, 0, false, []⟩, "y", none, none, none, none⟩
    ⟨0, 9, 0, false, []⟩ rfl rfl
    (fun P hP => by
      cases Option.some.inj hP
      exact fun _ _ _ _ _ => rfl)).1

end Tracing

namespace Tracing

/-- C6: with no valid parent, no precomputed sampling result and a
reachable provider, after resolution the builder's attribute list is the
sampler's additional attributes appended to any pre-existing attributes
(adopted wholesale when there were none); the pre-existing attributes stay
in place as a prefix. -/
theorem C6_attribute_merge (t : Tracer) (P : Provider) (b : SpanBuilder)
    (hp : b.parent_reference.filter SpanReference.is_valid = none)
    (hres : b.sampling_result = none)
    (hprov : t.provider = some P) :
    (t.sampled_span_reference b).2.attributes =
      some (b.attributes.getD [] ++
        (P.config.default_sampler.should_sample b.parent_reference
          (b.trace_id.getD P.config.id_generator.genTraceId) b.name
          (b.span_kind.getD SpanKind.Internal)
          (b.attributes.getD []) (b.links.getD [])).attributes) ∧
    ∀ attrs, b.attributes = some attrs →
      ((t.sampled_span_reference b).2.attributes.getD []).take attrs.length = attrs := by
  unfold Tracer.sampled_span_reference
  cases hattrs : b.attributes <;>
    simp [hp, hres, hprov, hattrs, List.take_append]

/-- Witness for C6: a builder owning attribute `("k", "v")` under a sampler
adding attribute `("s", "w")` ends up with both, in order. -/
theorem C6_attribute_merge_witness :
    ((Tracer.mk (some ⟨⟨⟨31, 32⟩,
          ⟨fun _ _ _ _ _ _ => ⟨SamplingDecision.RecordOnly, [("s", "w")]⟩⟩⟩⟩)).sampled_span_reference
        ⟨none, none, none, "m", none, some [("k", "v")], none, none⟩).2.attributes
      = some [("k", "v"), ("s", "w")] := by
  simpa using (C6_attribute_merge
    (Tracer.mk (some ⟨⟨⟨31, 32⟩, ⟨fun _ _ _ _ _ _ => ⟨SamplingDecision.RecordOnly, [("s", "w")]⟩⟩⟩⟩))
    ⟨⟨⟨31, 32⟩, ⟨fun _ _ _ _ _ _ => ⟨SamplingDecision.RecordOnly, [("s", "w")]⟩⟩⟩⟩
    ⟨none, none, none, "m", none, some [("k", "v")], none, none⟩ rfl rfl rfl).1

/-- C7: with no valid parent but a precomputed sampling result cached on
the builder, the flags are derived from the cached decision, the builder is
left unchanged (in particular its attributes), and the sampler is never
consulted: replacing it by any other sampler yields the same outcome. -/
theorem C7_cached_result (t : Tracer) (b : SpanBuilder) (r : SamplingResult)
    (hp : b.parent_reference.filter SpanReference.is_valid = none)
    (hres : b.sampling_result = some r) :
    (t.sampled_span_reference b).1.trace_flags =
      (if r.decision = SamplingDecision.RecordAndSample then TRACE_FLAG_SAMPLED else 0) ∧
    (t.sampled_span_reference b).2 = b ∧
    ∀ s : Sampler,
      Tracer.sampled_span_reference
          ⟨t.provider.map fun P => ⟨⟨P.config.id_generator, s⟩⟩⟩ b
        = t.sampled_span_reference b := by
  refine ⟨?_, ?_, ?_⟩
  · unfold Tracer.sampled_span_reference
    simp [hp, hres]
  · unfold Tracer.sampled_span_reference
    simp [hp, hres]
  · intro s
    unfold Tracer.sampled_span_reference
    cases hprov : t.provider <;> simp [hp, hres, hprov]

/-- Witness for C7: a cached `RecordAndSample` result yields sampled flags
and an untouched builder. -/
theorem C7_cached_result_witness :
    ((Tracer.mk none).sampled_span_reference
        ⟨some 41, some 42, none, "h", none, some [("a", "b")], none,
          some ⟨SamplingDecision.RecordAndSample, [("c", "d")]⟩⟩).1.trace_flags
      = TRACE_FLAG_SAMPLED ∧
    ((Tracer.mk none).sampled_span_reference
        ⟨some 41, some 42, none, "h", none, some [("a", "b")], none,
          some ⟨SamplingDecision.RecordAndSample, [("c", "d")]⟩⟩).2
      = ⟨some 41, some 42, none, "h", none, some [("a", "b")], none,
          some ⟨SamplingDecision.RecordAndSample, [("c", "d")]⟩⟩ := by
  have h := C7_cached_result (Tracer.mk none)
    ⟨some 41, some 42, none, "h", none, some [("a", "b")], none,
      some ⟨SamplingDecision.RecordAndSample, [("c", "d")]⟩⟩
    ⟨SamplingDecision.RecordAndSample, [("c", "d")]⟩ rfl rfl
  exact ⟨by simpa using h.1, h.2.1⟩

end Tracing

namespace Tracing

/-- C9: with a valid parent reference the builder is returned unchanged,
the sampler and the trace-id generator are never consulted (replacing both
leaves the outcome intact), and when the builder's span id is pre-assigned
the whole tracer — span-id generator included — is irrelevant. -/
theorem C9_valid_parent_frame (t : Tracer) (b : SpanBuilder) (p : SpanReference)
    (hp : b.parent_reference = some p) (hv : p.is_valid = true) :
    (t.sampled_span_reference b).2 = b ∧
    (∀ s : Sampler, ∀ g : TraceId,
      Tracer.sampled_span_reference
          ⟨t.provider.map fun P => ⟨⟨⟨g, P.config.id_generator.genSpanId⟩, s⟩⟩⟩ b
        = t.sampled_span_reference b) ∧
    (∀ sid, b.span_id = some sid →
      ∀ u : Tracer, u.sampled_span_reference b = t.sampled_span_reference b) := by
  refine ⟨?_, ?_, ?_⟩
  · unfold Tracer.sampled_span_reference
    simp [hp, Option.filter, hv]
  · intro s g
    unfold Tracer.sampled_span_reference
    cases hprov : t.provider <;> simp [hp, Option.filter, hv, hprov]
  · intro sid hsid u
    unfold Tracer.sampled_span_reference
    simp [hp, Option.filter, hv, hsid]

/-- Witness for C9: concrete builder with a valid parent and a pre-assigned
span id; even a torn-down tracer resolves it identically. -/
theorem C9_valid_parent_frame_witness :
    ((Tracer.mk (some ⟨⟨⟨51, 52⟩, parentSensitiveSampler⟩⟩)).sampled_span_reference
        ⟨none, some 60, some ⟨3, 4, 1, false, []⟩, "fr", none, none, none, none⟩).2
      = ⟨none, some 60, some ⟨3, 4, 1, false, []⟩, "fr", none, none, none, none⟩ ∧
    (Tracer.mk none).sampled_span_reference
        ⟨none, some 60, some ⟨3, 4, 1, false, []⟩, "fr", none, none, none, none⟩
      = (Tracer.mk (some ⟨⟨⟨51, 52⟩, parentSensitiveSampler⟩⟩)).sampled_span_reference
        ⟨none, some 60, some ⟨3, 4, 1, false, []⟩, "fr", none, none, none, none⟩ := by
  have h := C9_valid_parent_frame
    (Tracer.mk (some ⟨⟨⟨51, 52⟩, parentSensitiveSampler⟩⟩))
    ⟨none, some 60, some ⟨3, 4, 1, false, []⟩, "fr", none, none, none, none⟩
    ⟨3, 4, 1, false, []⟩ rfl rfl
  exact ⟨h.1, h.2.2 60 rfl (Tracer.mk none)⟩

/-- C10: `sampled_span_reference` never writes the builder's
`sampling_result` field; hence on a root builder with no cached result and
a reachable provider, a second call samples again and appends the sampler's
additional attributes a second time — resolution is not idempotent on the
builder. -/
theorem C10_no_result_caching (t : Tracer) (P : Provider) (b : SpanBuilder)
    (hp : b.parent_reference = none)
    (hres : b.sampling_result = none)
    (hprov : t.provider = some P) :
    (∀ u : Tracer, ∀ c : SpanBuilder,
      (u.sampled_span_reference c).2.sampling_result = c.sampling_result) ∧
    (t.sampled_span_reference b).2.attributes =
      some (b.attributes.getD [] ++
        (P.config.default_sampler.should_sample none
          (b.trace_id.getD P.config.id_generator.genTraceId) b.name
          (b.span_kind.getD SpanKind.Internal)
          (b.attributes.getD []) (b.links.getD [])).attributes) ∧
    (t.sampled_span_reference (t.sampled_span_reference b).2).2.attributes =
      some ((b.attributes.getD [] ++
        (P.config.default_sampler.should_sample none
          (b.trace_id.getD P.config.id_generator.genTraceId) b.name
          (b.span_kind.getD SpanKind.Internal)
          (b.attributes.getD []) (b.links.getD [])).attributes) ++
        (P.config.default_sampler.should_sample none
          (b.trace_id.getD P.config.id_generator.genTraceId) b.name
          (b.span_kind.getD SpanKind.Internal)
          (b.attributes.getD [] ++
            (P.config.default_sampler.should_sample none
              (b.trace_id.getD P.config.id_generator.genTraceId) b.name
              (b.span_kind.getD SpanKind.Internal)
              (b.attributes.getD []) (b.links.getD [])).attributes)
          (b.links.getD [])).attributes) := by
  have hmerge : (t.sampled_span_reference b).2 =
      { b with attributes := some (b.attributes.getD [] ++
          (P.config.default_sampler.should_sample none
            (b.trace_id.getD P.config.id_generator.genTraceId) b.name
            (b.span_kind.getD SpanKind.Internal)
            (b.attributes.getD []) (b.links.getD [])).attributes) } := by
    unfold Tracer.sampled_span_reference
    cases hattrs : b.attributes <;> simp [hp, hres, hprov, hattrs]
  refine ⟨?_, ?_, ?_⟩
  · intro u c
    unfold Tracer.sampled_span_reference
    cases hf : c.parent_reference.filter SpanReference.is_valid <;>
      cases hr : c.sampling_result <;>
        cases hu : u.provider <;> simp [hf, hr, hu]
  · rw [hmerge]
  · rw [hmerge]
    unfold Tracer.sampled_span_reference
    simp [hp, hres, hprov]

/-- Witness for C10: a root builder with no attributes under a sampler that
always adds `("s", "w")` carries the attribute twice after two calls. -/
theorem C10_no_result_caching_witness :
    ((Tracer.mk (some ⟨⟨⟨71, 72⟩,
          ⟨fun _ _ _ _ _ _ => ⟨SamplingDecision.RecordAndSample, [("s", "w")]⟩⟩⟩⟩)).sampled_span_reference
        ((Tracer.mk (some ⟨⟨⟨71, 72⟩,
          ⟨fun _ _ _ _ _ _ => ⟨SamplingDecision.RecordAndSample, [("s", "w")]⟩⟩⟩⟩)).sampled_span_reference
          ⟨none, none, none, "tw", none, none, none, none⟩).2).2.attributes
      = some [("s", "w"), ("s", "w")] := by
  simpa using (C10_no_result_caching
    (Tracer.mk (some ⟨⟨⟨71, 72⟩,
      ⟨fun _ _ _ _ _ _ => ⟨SamplingDecision.RecordAndSample, [("s", "w")]⟩⟩⟩⟩))
    ⟨⟨⟨71, 72⟩, ⟨fun _ _ _ _ _ _ => ⟨SamplingDecision.RecordAndSample, [("s", "w")]⟩⟩⟩⟩
    ⟨none, none, none, "tw", none, none, none, none⟩ rfl rfl rfl).2.2

end Tracing
